import Mathlib

/-
Verification of the subscription-multiplexer core of the go-hyperliquid
repository.  The repository carries two websocket client implementations:

* the `subKey`-keyed client of `ws.go` / `ws_types.go` (public
  `Subscribe` / `SubscribeParsed` / `Unsubscribe` / `Close` /
  `resubscribeAll` on `map[subKey]map[int]*subscriptionCallback`), and
* the string-keyed client (`subscribe` on `map[string]*uniqSubscriber`
  together with `msgDispatcher` values, `ws_utils.go`,
  `ws_types_subscriptable.go`, `ws_types_remote.go`).

Both are embedded below.  Go maps are embedded as association lists with
the usual lookup/update/erase operations; callbacks are observed through
delivery traces (listener identifier paired with the delivered value);
outbound frames are observed through the list of `wsCommand` values an
operation writes.
-/

set_option autoImplicit false

namespace GoHyperliquid

/-! ### Association-list embedding of Go maps -/

def alookup {α β : Type} [DecidableEq α] (k : α) : List (α × β) → Option β
  | [] => none
  | (a, b) :: t => if a = k then some b else alookup k t

/-- Go map write `m[k] = v`: replace the binding when present, append otherwise. -/
def aset {α β : Type} [DecidableEq α] (k : α) (v : β) : List (α × β) → List (α × β)
  | [] => [(k, v)]
  | (a, b) :: t => if a = k then (k, v) :: t else (a, b) :: aset k v t

/-- Go map `delete(m, k)`. -/
def aerase {α β : Type} [DecidableEq α] (k : α) : List (α × β) → List (α × β)
  | [] => []
  | (a, b) :: t => if a = k then t else (a, b) :: aerase k t

/-! ### Subscription key derivation (src/ws_utils.go) -/

/-- Source `func key(args ...string) string`: join the parts with `":"`. -/
def key (args : List String) : String := String.intercalate ":" args

/-- Modelled from the spec: the channel identifier constants
(`ChannelTrades`, `ChannelL2Book`, `ChannelCandle`, `ChannelAllMids`,
`ChannelNotification`, `ChannelOrderUpdates`, `ChannelSubResponse`) are
referenced by `ws_utils.go` and the client but their defining file is not
under `src/`; the values follow the wire channel names used verbatim in
`ws.go` and the spec's channel registry. -/
def ChannelTrades : String := "trades"

def ChannelL2Book : String := "l2Book"

def ChannelCandle : String := "candle"

def ChannelAllMids : String := "allMids"

def ChannelNotification : String := "notification"

def ChannelOrderUpdates : String := "orderUpdates"

def ChannelSubResponse : String := "subscriptionResponse"

def keyTrades (coin : String) : String := key [ChannelTrades, coin]

def keyCandles (symbol interval : String) : String := key [ChannelCandle, symbol, interval]

def keyL2Book (coin : String) : String := key [ChannelL2Book, coin]

/-- Source `keyAllMids`: the `dex` parameter is deliberately ignored. -/
def keyAllMids (_dex : Option String) : String := key [ChannelAllMids]

/-- Modelled from the spec: `keyNotification` is called by
`ws_types_remote.go` but defined in a file missing from `src/`; per the
spec, user-scoped channels key on (channel, user). -/
def keyNotification (user : String) : String := key [ChannelNotification, user]

/-- Modelled from the spec: `keyOrderUpdates` is called by
`ws_types_remote.go` but defined in a file missing from `src/`; per the
spec, user-scoped channels key on (channel, user). -/
def keyOrderUpdates (user : String) : String := key [ChannelOrderUpdates, user]

/-! ### Message payload types (src/types.go, src/ws_types.go) -/

structure Trade where
  coin : String
  side : String
  px : String
  sz : String
  time : Int
  hash : String
  tid : Int
  users : List String
deriving DecidableEq, Repr

structure Candle where
  timestamp : Int
  close : String
  high : String
  interval : String
  low : String
  number : Int
  openPx : String
  symbol : String
  time : Int
  volume : String
deriving DecidableEq, Repr

/-- Source `Level` carries `px`/`sz` as `float64` decoded from JSON strings;
no claim inspects them, so they are embedded by their decimal string form. -/
structure Level where
  n : Int
  px : String
  sz : String
deriving DecidableEq, Repr

structure L2Book where
  coin : String
  levels : List (List Level)
  time : Int
deriving DecidableEq, Repr

structure AllMids where
  mids : List (String × String)
deriving DecidableEq, Repr

structure Notification where
  notification : String
deriving DecidableEq, Repr

structure WsBasicOrder where
  coin : String
  side : String
  limitPx : String
  sz : String
  oid : Int
  timestamp : Int
  origSz : String
  cloid : Option String
deriving DecidableEq, Repr

structure WsOrder where
  order : WsBasicOrder
  status : String
  statusTimestamp : Int
deriving DecidableEq, Repr

/-- Modelled from the spec: `WsOrders` (element type of the order-updates
dispatcher) is declared in a file missing from `src/`; the order-updates
payload is the batch of `WsOrder` values. -/
abbrev WsOrders : Type := List WsOrder

/-! ### Subscriptable payload types (src/ws_types_subscriptable.go) -/

abbrev Trades : Type := List Trade

abbrev Candles : Type := List Candle

/-- Source `func (t Trades) Key() string`. -/
def Trades.Key : Trades → String
  | [] => ""
  | t :: _ => keyTrades t.coin

/-- Source `func (c Candles) Key() string`. -/
def Candles.Key : Candles → String
  | [] => ""
  | c :: _ => keyCandles c.symbol c.interval

/-- Source `func (c L2Book) Key() string`. -/
def L2Book.Key (c : L2Book) : String := keyL2Book c.coin

/-- Source `func (a AllMids) Key() string`. -/
def AllMids.Key (_a : AllMids) : String := keyAllMids none

/-! ### Subscription request and canonical key of the subKey client (src/ws_types.go) -/

structure Subscription where
  type : String
  coin : String
  user : String
  interval : String
deriving DecidableEq, Repr

structure subKey where
  typ : String
  coin : String
  user : String
  interval : String
deriving DecidableEq, Repr

/-- Source `func (s Subscription) key() subKey`. -/
def Subscription.key (s : Subscription) : subKey :=
  { typ := s.type, coin := s.coin, user := s.user, interval := s.interval }

/-- Source `WsCommand` / `wsCommand`: the outbound frame shape
`{method, subscription}` of the subKey client. -/
structure WsCommand where
  method : String
  subscription : Option Subscription
deriving DecidableEq, Repr

/-! ### ParsedSubscription and its field-setters (src/unnamed/part_006) -/

/-- Source `ParsedSubscription[T]`: embeds a `Subscription` plus the typed
callback; the callback's result is irrelevant to the embedding and kept as
`Unit`. -/
structure ParsedSubscription (T : Type) where
  subscription : Subscription
  callback : T → Unit

/-- Source `NewParsedSubscription`. -/
def NewParsedSubscription (T : Type) (subType : String) (callback : T → Unit) :
    ParsedSubscription T :=
  { subscription := { type := subType, coin := "", user := "", interval := "" }
    callback := callback }

/-- Source `func (ps *ParsedSubscription[T]) WithCoin`. -/
def ParsedSubscription.WithCoin {T : Type} (ps : ParsedSubscription T) (coin : String) :
    ParsedSubscription T :=
  { ps with subscription := { ps.subscription with coin := coin } }

/-- Source `func (ps *ParsedSubscription[T]) WithUser`. -/
def ParsedSubscription.WithUser {T : Type} (ps : ParsedSubscription T) (user : String) :
    ParsedSubscription T :=
  { ps with subscription := { ps.subscription with user := user } }

/-- Source `func (ps *ParsedSubscription[T]) WithInterval`. -/
def ParsedSubscription.WithInterval {T : Type} (ps : ParsedSubscription T) (interval : String) :
    ParsedSubscription T :=
  { ps with subscription := { ps.subscription with interval := interval } }

/-- Source `func (ps *ParsedSubscription[T]) GetSubscription`. -/
def ParsedSubscription.GetSubscription {T : Type} (ps : ParsedSubscription T) : Subscription :=
  ps.subscription

/-! ### Remote subscription payloads of the string-keyed client (src/ws_types_remote.go) -/

structure remoteTradesSubscriptionPayload where
  type : String
  coin : String
deriving DecidableEq, Repr

def remoteTradesSubscriptionPayload.Key (p : remoteTradesSubscriptionPayload) : String :=
  keyTrades p.coin

structure remoteL2BookSubscriptionPayload where
  type : String
  coin : String
  nSigFigs : Int
  mantissa : Int
deriving DecidableEq, Repr

/-- Source `func (p remoteL2BookSubscriptionPayload) Key() string`:
deliberately excludes `NSigFigs` and `Mantissa`. -/
def remoteL2BookSubscriptionPayload.Key (p : remoteL2BookSubscriptionPayload) : String :=
  keyL2Book p.coin

structure remoteCandlesSubscriptionPayload where
  type : String
  coin : String
  interval : String
deriving DecidableEq, Repr

def remoteCandlesSubscriptionPayload.Key (p : remoteCandlesSubscriptionPayload) : String :=
  keyCandles p.coin p.interval

structure remoteAllMidsSubscriptionPayload where
  type : String
  dex : Option String
deriving DecidableEq, Repr

def remoteAllMidsSubscriptionPayload.Key (p : remoteAllMidsSubscriptionPayload) : String :=
  keyAllMids p.dex

structure remoteNotificationSubscriptionPayload where
  type : String
  user : String
deriving DecidableEq, Repr

def remoteNotificationSubscriptionPayload.Key (p : remoteNotificationSubscriptionPayload) :
    String :=
  keyNotification p.user

structure remoteOrderUpdatesSubscriptionPayload where
  type : String
  user : String
deriving DecidableEq, Repr

def remoteOrderUpdatesSubscriptionPayload.Key (p : remoteOrderUpdatesSubscriptionPayload) :
    String :=
  keyOrderUpdates p.user

/-- The `subscriptable` interface (src/ws_types_subscriptable.go), embedded as
the closed sum of the payload types that implement it in the repository. -/
inductive subscriptable where
  | trades (p : remoteTradesSubscriptionPayload)
  | l2book (p : remoteL2BookSubscriptionPayload)
  | candles (p : remoteCandlesSubscriptionPayload)
  | allMids (p : remoteAllMidsSubscriptionPayload)
  | notification (p : remoteNotificationSubscriptionPayload)
  | orderUpdates (p : remoteOrderUpdatesSubscriptionPayload)
deriving DecidableEq, Repr

def subscriptable.Key : subscriptable → String
  | .trades p => p.Key
  | .l2book p => p.Key
  | .candles p => p.Key
  | .allMids p => p.Key
  | .notification p => p.Key
  | .orderUpdates p => p.Key

/-! ### The subKey-keyed client of src/ws.go

State of the `WebsocketClient` struct.  Inner maps
`map[int]*subscriptionCallback` hold the listener callbacks keyed by id;
the callbacks themselves are opaque functions never inspected by the
registry logic, so a group is embedded as the list of its listener ids.
`conn` is true when `w.conn != nil`; the `done` channel is embedded by
whether it has been closed. -/

structure WsGoState where
  subscriptions : List (subKey × List Nat)
  parsedSubscriptions : List (subKey × List Nat)
  subscriptionByID : List (Nat × (subKey × Subscription))
  parsedSubscriptionByID : List (Nat × (subKey × Subscription))
  nextSubID : Nat
  conn : Bool
  doneClosed : Bool
deriving DecidableEq, Repr

instance instDecEqExcept {ε α : Type} [DecidableEq ε] [DecidableEq α] :
    DecidableEq (Except ε α) := fun x y =>
  match x, y with
  | .ok a, .ok b =>
    if h : a = b then isTrue (by rw [h]) else isFalse (by intro hh; cases hh; exact h rfl)
  | .error a, .error b =>
    if h : a = b then isTrue (by rw [h]) else isFalse (by intro hh; cases hh; exact h rfl)
  | .ok _, .error _ => isFalse (by intro hh; cases hh)
  | .error _, .ok _ => isFalse (by intro hh; cases hh)

/-- Outcome of one client operation: the post state, the outbound frames the
operation wrote to the transport, and its returned value or error string. -/
structure GoResult (α : Type) where
  state : WsGoState
  frames : List WsCommand
  result : Except String α
deriving DecidableEq, Repr

/-- Source `writeJSON`: fails when `w.conn == nil`, otherwise writes the frame. -/
def writeJSONGo (st : WsGoState) (cmd : WsCommand) : Except String (List WsCommand) :=
  if st.conn then .ok [cmd] else .error "connection closed"

def sendSubscribeGo (st : WsGoState) (sub : Subscription) : Except String (List WsCommand) :=
  writeJSONGo st { method := "subscribe", subscription := some sub }

def sendUnsubscribeGo (st : WsGoState) (sub : Subscription) : Except String (List WsCommand) :=
  writeJSONGo st { method := "unsubscribe", subscription := some sub }

/-- Source `WebsocketClient.Subscribe` (ws.go lines 96-129).
`callbackIsNil` stands for the `callback == nil` argument check. -/
def SubscribeGo (st : WsGoState) (sub : Subscription) (callbackIsNil : Bool) : GoResult Nat :=
  if callbackIsNil then ⟨st, [], .error "callback cannot be nil"⟩
  else
    let k := sub.key
    let id := st.nextSubID + 1
    let groups0 :=
      match alookup k st.subscriptions with
      | none => aset k ([] : List Nat) st.subscriptions
      | some _ => st.subscriptions
    let groups1 := aset k (((alookup k groups0).getD []) ++ [id]) groups0
    let byID1 := aset id (k, sub) st.subscriptionByID
    let st1 := { st with subscriptions := groups1, subscriptionByID := byID1, nextSubID := id }
    match sendSubscribeGo st1 sub with
    | .ok fs => ⟨st1, fs, .ok id⟩
    | .error e =>
      let groups2 := aset k (((alookup k groups1).getD []).filter (fun i => i ≠ id)) groups1
      ⟨{ st1 with subscriptions := groups2, subscriptionByID := aerase id byID1 }, [],
        .error ("subscribe: " ++ e)⟩

/-- Source `WebsocketClient.SubscribeParsed` (ws.go lines 132-166): identical
shape over the parsed registries; `sub` is the embedded `Subscription`
returned by `GetSubscription`, `nilArg` the `sub == nil || callback == nil`
check. -/
def SubscribeParsedGo (st : WsGoState) (sub : Subscription) (nilArg : Bool) : GoResult Nat :=
  if nilArg then ⟨st, [], .error "subscription and callback cannot be nil"⟩
  else
    let k := sub.key
    let id := st.nextSubID + 1
    let groups0 :=
      match alookup k st.parsedSubscriptions with
      | none => aset k ([] : List Nat) st.parsedSubscriptions
      | some _ => st.parsedSubscriptions
    let groups1 := aset k (((alookup k groups0).getD []) ++ [id]) groups0
    let byID1 := aset id (k, sub) st.parsedSubscriptionByID
    let st1 :=
      { st with parsedSubscriptions := groups1, parsedSubscriptionByID := byID1, nextSubID := id }
    match sendSubscribeGo st1 sub with
    | .ok fs => ⟨st1, fs, .ok id⟩
    | .error e =>
      let groups2 := aset k (((alookup k groups1).getD []).filter (fun i => i ≠ id)) groups1
      ⟨{ st1 with parsedSubscriptions := groups2, parsedSubscriptionByID := aerase id byID1 }, [],
        .error ("subscribe: " ++ e)⟩

/-- Source `WebsocketClient.Unsubscribe` (ws.go lines 169-214).  A lookup of a
missing key yields the nil map, on which every id lookup fails. -/
def UnsubscribeGo (st : WsGoState) (id : Nat) : GoResult Unit :=
  match alookup id st.subscriptionByID with
  | some info =>
    let subs := (alookup info.1 st.subscriptions).getD []
    if id ∈ subs then
      let subs1 := subs.filter (fun i => i ≠ id)
      let st1 :=
        { st with subscriptions := aset info.1 subs1 st.subscriptions,
                  subscriptionByID := aerase id st.subscriptionByID }
      if subs1 = [] then
        let st2 := { st1 with subscriptions := aerase info.1 st1.subscriptions }
        match sendUnsubscribeGo st2 info.2 with
        | .ok fs => ⟨st2, fs, .ok ()⟩
        | .error e => ⟨st2, [], .error ("unsubscribe: " ++ e)⟩
      else ⟨st1, [], .ok ()⟩
    else ⟨st, [], .error "subscription ID not found"⟩
  | none =>
    match alookup id st.parsedSubscriptionByID with
    | some info =>
      let subs := (alookup info.1 st.parsedSubscriptions).getD []
      if id ∈ subs then
        let subs1 := subs.filter (fun i => i ≠ id)
        let st1 :=
          { st with parsedSubscriptions := aset info.1 subs1 st.parsedSubscriptions,
                    parsedSubscriptionByID := aerase id st.parsedSubscriptionByID }
        if subs1 = [] then
          let st2 := { st1 with parsedSubscriptions := aerase info.1 st1.parsedSubscriptions }
          match sendUnsubscribeGo st2 info.2 with
          | .ok fs => ⟨st2, fs, .ok ()⟩
          | .error e => ⟨st2, [], .error ("unsubscribe: " ++ e)⟩
        else ⟨st1, [], .ok ()⟩
      else ⟨st, [], .error "subscription ID not found"⟩
    | none => ⟨st, [], .error "subscription ID not found"⟩

/-- Source `resubscribeAll` (ws.go lines 350-379): a `Subscription` rebuilt
from the key's fields. -/
def subOfKey (k : subKey) : Subscription :=
  { type := k.typ, coin := k.coin, user := k.user, interval := k.interval }

/-- One loop of `resubscribeAll`: skip groups with `len(subs) == 0`, send one
subscribe frame per remaining key, abort on the first send error. -/
def resubLoopGo (st : WsGoState) (errPrefix : String) :
    List (subKey × List Nat) → Except String (List WsCommand)
  | [] => .ok []
  | (k, ls) :: t =>
    if ls.length > 0 then
      match sendSubscribeGo st (subOfKey k) with
      | .error e => .error (errPrefix ++ e)
      | .ok fs =>
        match resubLoopGo st errPrefix t with
        | .error e => .error e
        | .ok rest => .ok (fs ++ rest)
    else resubLoopGo st errPrefix t

/-- Source `WebsocketClient.resubscribeAll` (ws.go): the plain registry loop
followed by the parsed registry loop. -/
def resubscribeAllGo (st : WsGoState) : Except String (List WsCommand) :=
  match resubLoopGo st "resubscribe: " st.subscriptions with
  | .error e => .error e
  | .ok fs1 =>
    match resubLoopGo st "resubscribe parsed: " st.parsedSubscriptions with
    | .error e => .error e
    | .ok fs2 => .ok (fs1 ++ fs2)

/-- Outcome of `Close`: closing an already-closed Go channel panics. -/
inductive CloseOutcome where
  | panicked
  | ok (st : WsGoState) (err : Option String)
deriving DecidableEq, Repr

/-- Source `WebsocketClient.Close` (ws.go lines 216-226): `close(w.done)` is
executed unconditionally, then the connection, when present, is closed (its
close result is embedded as no error; the `conn` field is not cleared by
`Close` in the source, only by `readPump`). -/
def CloseGo (st : WsGoState) : CloseOutcome :=
  if st.doneClosed then .panicked
  else
    let st1 := { st with doneClosed := true }
    .ok st1 none

/-! ### The string-keyed client (src/unnamed/part_001, first version) and its
dispatchers (src/unnamed/part_004)

Inbound `json.RawMessage` payloads are embedded as a closed sum of the typed
values the registered dispatchers decode; `json.Unmarshal` into `T` succeeds
exactly on the variant for `T`. -/

inductive wsData where
  | trades (ts : Trades)
  | l2book (b : L2Book)
  | candles (cs : Candles)
  | allMids (m : AllMids)
  | notification (n : Notification)
  | orders (os : WsOrders)
  | other
deriving DecidableEq, Repr

structure wsMessage where
  Channel : String
  Data : wsData
deriving DecidableEq, Repr

/-- Source `wsCommand` of the string-keyed client: subscribe/unsubscribe
frames carry the `subscriptable` payload. -/
structure wsCommand where
  method : String
  subscription : Option subscriptable
deriving DecidableEq, Repr

/-- Modelled from the spec: the `uniqSubscriber` type (the Subscriber Group)
is defined in a file missing from `src/`; only its callers are present
(part_001, part_004).  Per the spec it owns the canonical key (`id`), the
original request payload, and the map from listener identifier to callback;
callbacks are embedded by their listener identifiers and observed through
delivery traces. -/
structure uniqSubscriber where
  id : String
  subscriptionPayload : subscriptable
  listeners : List String
deriving DecidableEq, Repr

/-- Modelled from the spec: `uniqSubscriber.dispatch` hands the decoded value
to every listener callback of the group (the group applies no further
filtering; matching is the dispatcher's job).  The trace records one
`(listener, value)` delivery per listener. -/
def uniqSubscriber.dispatch (s : uniqSubscriber) (v : wsData) : List (String × wsData) :=
  s.listeners.map (fun l => (l, v))

/-- Source `NewMsgDispatcher[T]` (part_004 lines 18-37), parameterized by the
channel, the decoder for `T` and `T`'s own `Key` computation: deliver only to
subscribers whose `id` equals the key computed from the decoded content. -/
def NewMsgDispatcher {α : Type} (channel : String) (decode : wsData → Option α)
    (keyOf : α → String) (encode : α → wsData)
    (subs : List uniqSubscriber) (msg : wsMessage) :
    Except String (List (String × wsData)) :=
  if msg.Channel ≠ channel then .ok []
  else
    match decode msg.Data with
    | none => .error "failed to unmarshal message"
    | some x =>
      .ok (subs.foldl
        (fun acc s => if s.id = keyOf x then acc ++ s.dispatch (encode x) else acc) [])

/-- Source `NewUserSpecificDispatcher[T]` (part_004 lines 46-65): after
decoding, dispatch to all subscribers it is handed, since the message carries
no user identification. -/
def NewUserSpecificDispatcher {α : Type} (channel : String) (decode : wsData → Option α)
    (encode : α → wsData) (subs : List uniqSubscriber) (msg : wsMessage) :
    Except String (List (String × wsData)) :=
  if msg.Channel ≠ channel then .ok []
  else
    match decode msg.Data with
    | none => .error "failed to unmarshal message"
    | some x => .ok (subs.foldl (fun acc s => acc ++ s.dispatch (encode x)) [])

/-- Source `NewNoopDispatcher` (part_004 lines 39-44). -/
def NewNoopDispatcher (_subs : List uniqSubscriber) (_msg : wsMessage) :
    Except String (List (String × wsData)) :=
  .ok []

def decodeTrades : wsData → Option Trades
  | .trades ts => some ts
  | _ => none

def decodeL2Book : wsData → Option L2Book
  | .l2book b => some b
  | _ => none

def decodeCandles : wsData → Option Candles
  | .candles cs => some cs
  | _ => none

def decodeAllMids : wsData → Option AllMids
  | .allMids m => some m
  | _ => none

def decodeNotification : wsData → Option Notification
  | .notification n => some n
  | _ => none

def decodeOrders : wsData → Option WsOrders
  | .orders os => some os
  | _ => none

/-- Source `msgDispatcherRegistry` map literal of `NewWebsocketClient`
(part_001 lines 59-68), embedded as the channel-indexed lookup. -/
def msgDispatcherRegistry (channel : String) :
    Option (List uniqSubscriber → wsMessage → Except String (List (String × wsData))) :=
  if channel = ChannelTrades then
    some (NewMsgDispatcher ChannelTrades decodeTrades Trades.Key wsData.trades)
  else if channel = ChannelL2Book then
    some (NewMsgDispatcher ChannelL2Book decodeL2Book L2Book.Key wsData.l2book)
  else if channel = ChannelCandle then
    some (NewMsgDispatcher ChannelCandle decodeCandles Candles.Key wsData.candles)
  else if channel = ChannelAllMids then
    some (NewMsgDispatcher ChannelAllMids decodeAllMids AllMids.Key wsData.allMids)
  else if channel = ChannelNotification then
    some (NewUserSpecificDispatcher ChannelNotification decodeNotification wsData.notification)
  else if channel = ChannelOrderUpdates then
    some (NewUserSpecificDispatcher ChannelOrderUpdates decodeOrders wsData.orders)
  else if channel = ChannelSubResponse then
    some NewNoopDispatcher
  else none

/-- State of the string-keyed `WebsocketClient`. -/
structure WsState where
  subscribers : List (String × uniqSubscriber)
  nextSubID : Nat
  conn : Bool
  doneClosed : Bool
deriving DecidableEq, Repr

/-- Outcome of a string-keyed client operation. -/
structure P1Result where
  state : WsState
  frames : List wsCommand
  result : Except String String
deriving DecidableEq, Repr

def sendSubscribeP1 (st : WsState) (payload : subscriptable) : Except String (List wsCommand) :=
  if st.conn then .ok [{ method := "subscribe", subscription := some payload }]
  else .error "connection closed"

def sendUnsubscribeP1 (st : WsState) (payload : subscriptable) : Except String (List wsCommand) :=
  if st.conn then .ok [{ method := "unsubscribe", subscription := some payload }]
  else .error "connection closed"

/-- Source `WebsocketClient.subscribe` (part_001 lines 98-146): look the group
up under the canonical key, creating it when absent; the group's listener
attach fires the `onSubscribe` hook on the zero-to-one listener transition
(modelled from the spec, see `uniqSubscriber`), and the hook merely logs a
send failure, so the frame list is empty when the transport write fails and
the attach still succeeds. -/
def subscribeP1 (st : WsState) (payload : subscriptable) (callbackIsNil : Bool) : P1Result :=
  if callbackIsNil then ⟨st, [], .error "callback cannot be nil"⟩
  else
    let pkey := payload.Key
    let subscriber :=
      match alookup pkey st.subscribers with
      | some s => s
      | none => { id := pkey, subscriptionPayload := payload, listeners := [] }
    let subscribers1 :=
      match alookup pkey st.subscribers with
      | some _ => st.subscribers
      | none => aset pkey subscriber st.subscribers
    let nextID := st.nextSubID + 1
    let subID := key [pkey, toString nextID]
    let frames :=
      if subscriber.listeners.isEmpty then
        match sendSubscribeP1 st payload with
        | .ok fs => fs
        | .error _ => []
      else []
    let subscriber1 := { subscriber with listeners := subscriber.listeners ++ [subID] }
    ⟨{ st with subscribers := aset pkey subscriber1 subscribers1, nextSubID := nextID },
      frames, .ok subID⟩

/-- Source `dispatch` (part_001 lines 232-247): pick the dispatcher by the
message's channel and hand it the values of the whole subscriber map. -/
def dispatchP1 (st : WsState) (msg : wsMessage) : Except String (List (String × wsData)) :=
  match msgDispatcherRegistry msg.Channel with
  | none => .error ("no dispatcher for channel: " ++ msg.Channel)
  | some d => d (st.subscribers.map Prod.snd) msg

/-- Source `resubscribeAll` (part_001 lines 269-276): one subscribe frame per
registered group, aborting on the first send error. -/
def resubscribeAllP1 (st : WsState) : List (String × uniqSubscriber) →
    Except String (List wsCommand)
  | [] => .ok []
  | (_, s) :: t =>
    match sendSubscribeP1 st s.subscriptionPayload with
    | .error e => .error ("resubscribe: " ++ e)
    | .ok fs =>
      match resubscribeAllP1 st t with
      | .error e => .error e
      | .ok rest => .ok (fs ++ rest)

/-- Detach on the string-keyed client: the handle's `Close` calls the
group's listener removal (modelled from the spec, see `uniqSubscriber`:
the one-to-zero listener transition fires the `onUnsubscribe` hook),
combined with the hook `subscribe` installs (part_001 lines 120-128):
delete the group under its canonical key and send the unsubscribe frame,
only logging a send failure.  Returns the post state and the frames
written. -/
def unsubscribeP1 (st : WsState) (pkey : String) (subID : String) :
    WsState × List wsCommand :=
  match alookup pkey st.subscribers with
  | none => (st, [])
  | some s =>
    let listeners1 := s.listeners.filter (fun l => l ≠ subID)
    if listeners1 = [] then
      let st1 := { st with subscribers := aerase pkey st.subscribers }
      let frames :=
        match sendUnsubscribeP1 st1 s.subscriptionPayload with
        | .ok fs => fs
        | .error _ => []
      (st1, frames)
    else
      ({ st with subscribers := aset pkey { s with listeners := listeners1 } st.subscribers },
        [])

/-- Canonical key carried by a string-keyed subscribe/unsubscribe frame. -/
def wsCommand.payloadKey (c : wsCommand) : String :=
  match c.subscription with
  | some p => p.Key
  | none => ""

/-! ### Iteration helpers for the attach-frame counting claims -/

/-- Attach `n` listeners for the same payload in sequence on the string-keyed
client, collecting every frame sent. -/
def subscribeP1Iter (p : subscriptable) : Nat → WsState → WsState × List wsCommand
  | 0, st => (st, [])
  | n + 1, st =>
    let r := subscribeP1 st p false
    let rest := subscribeP1Iter p n r.state
    (rest.1, r.frames ++ rest.2)

/-- Attach `n` listeners for the same subscription in sequence on the subKey
client, collecting every frame sent. -/
def subscribeGoIter (sub : Subscription) : Nat → WsGoState → WsGoState × List WsCommand
  | 0, st => (st, [])
  | n + 1, st =>
    let r := SubscribeGo st sub false
    let rest := subscribeGoIter sub n r.state
    (rest.1, r.frames ++ rest.2)

/-! ### Observation helpers for the resubscription claim -/

/-- Number of occurrences of a frame in a frame list. -/
def countCmd (c : WsCommand) (l : List WsCommand) : Nat :=
  (l.filter (fun x => x = c)).length

/-- A registry has a live group under `k` when the key is bound to a
non-empty listener list. -/
def liveIn (m : List (subKey × List Nat)) (k : subKey) : Bool :=
  match alookup k m with
  | some ls => ls.length > 0
  | none => false

/-- The subscribe frames one `resubscribeAll` loop emits: one per key whose
group has at least one listener, in registry order. -/
def liveFrames (m : List (subKey × List Nat)) : List WsCommand :=
  (m.filter (fun kl => kl.2.length > 0)).map
    (fun kl => { method := "subscribe", subscription := some (subOfKey kl.1) })

/-! ### Association-list lemmas -/

theorem alookup_aset_self {α β : Type} [DecidableEq α] (k : α) (v : β) (m : List (α × β)) :
    alookup k (aset k v m) = some v := by
  induction m with
  | nil => simp [aset, alookup]
  | cons hd t ih =>
    obtain ⟨a, b⟩ := hd
    by_cases h : a = k
    · simp [aset, alookup, h]
    · simp [aset, alookup, h, ih]

theorem aset_aset_self {α β : Type} [DecidableEq α] (k : α) (v1 v2 : β) (m : List (α × β)) :
    aset k v2 (aset k v1 m) = aset k v2 m := by
  induction m with
  | nil => simp [aset]
  | cons hd t ih =>
    obtain ⟨a, b⟩ := hd
    by_cases h : a = k
    · simp [aset, h]
    · simp [aset, h, ih]

theorem alookup_none_of_not_mem_keys {α β : Type} [DecidableEq α] (k : α) (m : List (α × β))
    (h : k ∉ m.map Prod.fst) : alookup k m = none := by
  induction m with
  | nil => rfl
  | cons hd t ih =>
    obtain ⟨a, b⟩ := hd
    simp only [List.map_cons, List.mem_cons] at h
    push_neg at h
    have hak : ¬a = k := fun hh => h.1 hh.symm
    simp [alookup, hak, ih h.2]

theorem aerase_aset_of_absent {α β : Type} [DecidableEq α] (k : α) (v : β) (m : List (α × β))
    (h : alookup k m = none) : aerase k (aset k v m) = m := by
  induction m with
  | nil => simp [aset, aerase]
  | cons hd t ih =>
    obtain ⟨a, b⟩ := hd
    by_cases hk : a = k
    · simp [alookup, hk] at h
    · simp only [alookup, hk, if_false] at h
      simp [aset, aerase, hk, ih h]

theorem mem_keys_aset {α β : Type} [DecidableEq α] {x k : α} (v : β) (m : List (α × β))
    (h : x ∈ (aset k v m).map Prod.fst) : x ∈ m.map Prod.fst ∨ x = k := by
  induction m with
  | nil => simpa [aset] using h
  | cons hd t ih =>
    obtain ⟨a, b⟩ := hd
    by_cases hk : a = k
    · subst hk
      simp only [aset, if_true, List.map_cons, List.mem_cons] at h
      rcases h with h | h
      · exact .inr h
      · exact .inl (by simp [h])
    · simp only [aset, hk, if_false, List.map_cons, List.mem_cons] at h
      rcases h with h | h
      · exact .inl (by simp [h])
      · rcases ih h with h2 | h2
        · exact .inl (by simp [h2])
        · exact .inr h2

theorem keys_aset_nodup {α β : Type} [DecidableEq α] (k : α) (v : β) (m : List (α × β))
    (h : (m.map Prod.fst).Nodup) : ((aset k v m).map Prod.fst).Nodup := by
  induction m with
  | nil => simp [aset]
  | cons hd t ih =>
    obtain ⟨a, b⟩ := hd
    simp only [List.map_cons, List.nodup_cons] at h
    by_cases hk : a = k
    · subst hk
      simp only [aset, if_true, List.map_cons, List.nodup_cons]
      exact h
    · simp only [aset, hk, if_false, List.map_cons, List.nodup_cons]
      refine ⟨fun hmem => ?_, ih h.2⟩
      rcases mem_keys_aset v t hmem with h2 | h2
      · exact h.1 h2
      · exact hk h2

theorem alookup_aerase_of_nodup {α β : Type} [DecidableEq α] (k : α) (m : List (α × β))
    (h : (m.map Prod.fst).Nodup) : alookup k (aerase k m) = none := by
  induction m with
  | nil => rfl
  | cons hd t ih =>
    obtain ⟨a, b⟩ := hd
    simp only [List.map_cons, List.nodup_cons] at h
    by_cases hk : a = k
    · subst hk
      simp only [aerase, if_true]
      exact alookup_none_of_not_mem_keys a t h.1
    · simp [aerase, alookup, hk, ih h.2]

/-! ### List fold and counting lemmas -/

theorem foldl_append_eq_flatMap {α β : Type} (f : α → List β) :
    ∀ (l : List α) (acc : List β), l.foldl (fun a s => a ++ f s) acc = acc ++ l.flatMap f
  | [], acc => by simp
  | x :: t, acc => by
    rw [List.foldl_cons, foldl_append_eq_flatMap f t (acc ++ f x)]
    simp [List.append_assoc]

theorem foldl_ite_append_eq_flatMap_filter {α β : Type} (P : α → Prop) [DecidablePred P]
    (f : α → List β) :
    ∀ (l : List α) (acc : List β),
      l.foldl (fun a s => if P s then a ++ f s else a) acc
        = acc ++ (l.filter (fun s => decide (P s))).flatMap f
  | [], acc => by simp
  | x :: t, acc => by
    by_cases h : P x
    · rw [List.foldl_cons, if_pos h, foldl_ite_append_eq_flatMap_filter P f t (acc ++ f x)]
      simp [List.filter_cons, h, List.append_assoc]
    · rw [List.foldl_cons, if_neg h, foldl_ite_append_eq_flatMap_filter P f t acc]
      simp [List.filter_cons, h]

theorem countCmd_append (c : WsCommand) (l1 l2 : List WsCommand) :
    countCmd c (l1 ++ l2) = countCmd c l1 + countCmd c l2 := by
  simp [countCmd, List.filter_append]

theorem countCmd_cons (c x : WsCommand) (l : List WsCommand) :
    countCmd c (x :: l) = (if x = c then 1 else 0) + countCmd c l := by
  simp only [countCmd, List.filter_cons]
  by_cases h : x = c
  · simp [h, Nat.add_comm]
  · simp [h]

theorem subOfKey_inj {a b : subKey} (h : subOfKey a = subOfKey b) : a = b := by
  cases a
  cases b
  simpa [subOfKey, Subscription.mk.injEq, subKey.mk.injEq] using h

theorem liveFrames_cons (a : subKey) (ls : List Nat) (t : List (subKey × List Nat)) :
    liveFrames ((a, ls) :: t)
      = if ls.length > 0
        then { method := "subscribe", subscription := some (subOfKey a) } :: liveFrames t
        else liveFrames t := by
  by_cases h : ls.length > 0 <;> simp [liveFrames, List.filter_cons, h]

theorem liveIn_cons (a k : subKey) (ls : List Nat) (t : List (subKey × List Nat)) :
    liveIn ((a, ls) :: t) k = if a = k then decide (ls.length > 0) else liveIn t k := by
  by_cases h : a = k <;> simp [liveIn, alookup, h]

theorem countCmd_liveFrames (k : subKey) :
    ∀ m : List (subKey × List Nat), (m.map Prod.fst).Nodup →
      countCmd { method := "subscribe", subscription := some (subOfKey k) } (liveFrames m)
        = if liveIn m k then 1 else 0
  | [], _ => by simp [liveFrames, countCmd, liveIn, alookup]
  | (a, ls) :: t, h => by
    simp only [List.map_cons, List.nodup_cons] at h
    have ih := countCmd_liveFrames k t h.2
    rw [liveFrames_cons, liveIn_cons]
    by_cases hak : a = k
    · subst hak
      have ht : liveIn t a = false := by
        simp [liveIn, alookup_none_of_not_mem_keys a t h.1]
      rw [ht] at ih
      simp only [Bool.false_eq_true, if_false] at ih
      by_cases hl : ls.length > 0
      · rw [if_pos hl, countCmd_cons, if_pos rfl, ih]
        simp [hl]
      · rw [if_neg hl, ih]
        simp [hl]
    · have hframe : ({ method := "subscribe", subscription := some (subOfKey a) } : WsCommand)
          ≠ { method := "subscribe", subscription := some (subOfKey k) } := by
        intro hh
        exact hak (subOfKey_inj (by simpa [WsCommand.mk.injEq] using hh))
      rw [if_neg hak]
      by_cases hl : ls.length > 0
      · rw [if_pos hl, countCmd_cons, if_neg hframe, ih]
        simp
      · rw [if_neg hl, ih]

/-! ### Step lemmas for the two clients -/

theorem resubLoopGo_of_conn (st : WsGoState) (pre : String) (h : st.conn = true) :
    ∀ m : List (subKey × List Nat), resubLoopGo st pre m = .ok (liveFrames m)
  | [] => by simp [resubLoopGo, liveFrames]
  | (k, ls) :: t => by
    have ih := resubLoopGo_of_conn st pre h t
    rw [liveFrames_cons]
    by_cases hl : ls.length > 0
    · simp [resubLoopGo, hl, sendSubscribeGo, writeJSONGo, h, ih]
    · simp [resubLoopGo, hl, ih]

theorem resubscribeAllGo_of_conn (st : WsGoState) (h : st.conn = true) :
    resubscribeAllGo st = .ok (liveFrames st.subscriptions ++ liveFrames st.parsedSubscriptions) := by
  simp [resubscribeAllGo, resubLoopGo_of_conn st _ h]

theorem SubscribeGo_of_conn (st : WsGoState) (sub : Subscription) (h : st.conn = true) :
    (SubscribeGo st sub false).frames
        = [{ method := "subscribe", subscription := some sub }] ∧
      (SubscribeGo st sub false).state.conn = true ∧
      (SubscribeGo st sub false).result = .ok (st.nextSubID + 1) := by
  simp only [SubscribeGo, Bool.false_eq_true, if_false, sendSubscribeGo, writeJSONGo, h,
    if_true]
  simp

theorem subscribeGoIter_of_conn (sub : Subscription) :
    ∀ (n : Nat) (st : WsGoState), st.conn = true →
      (subscribeGoIter sub n st).2.length = n
  | 0, st, _ => rfl
  | n + 1, st, h => by
    obtain ⟨hf, hc, _⟩ := SubscribeGo_of_conn st sub h
    simp [subscribeGoIter, hf, subscribeGoIter_of_conn sub n _ hc]

theorem subscribeP1_of_existing (st : WsState) (p : subscriptable) (s : uniqSubscriber)
    (hs : alookup p.Key st.subscribers = some s) (hne : s.listeners ≠ []) :
    (subscribeP1 st p false).frames = [] ∧
      alookup p.Key (subscribeP1 st p false).state.subscribers
        = some { s with listeners := s.listeners ++ [key [p.Key, toString (st.nextSubID + 1)]] } ∧
      (subscribeP1 st p false).state.conn = st.conn ∧
      (subscribeP1 st p false).result = .ok (key [p.Key, toString (st.nextSubID + 1)]) := by
  have hemp : s.listeners.isEmpty = false := by
    cases hl : s.listeners with
    | nil => exact absurd hl hne
    | cons a t => rfl
  simp only [subscribeP1, Bool.false_eq_true, if_false, hs, hemp]
  simp [alookup_aset_self]

theorem subscribeP1_of_fresh (st : WsState) (p : subscriptable)
    (habs : alookup p.Key st.subscribers = none) (hconn : st.conn = true) :
    (subscribeP1 st p false).frames = [{ method := "subscribe", subscription := some p }] ∧
      alookup p.Key (subscribeP1 st p false).state.subscribers
        = some { id := p.Key, subscriptionPayload := p,
                 listeners := [key [p.Key, toString (st.nextSubID + 1)]] } ∧
      (subscribeP1 st p false).state.conn = st.conn ∧
      (subscribeP1 st p false).result = .ok (key [p.Key, toString (st.nextSubID + 1)]) := by
  simp only [subscribeP1, Bool.false_eq_true, if_false, habs, sendSubscribeP1, hconn, if_true,
    List.isEmpty_nil]
  simp [aset_aset_self, alookup_aset_self]

theorem subscribeP1Iter_of_existing (p : subscriptable) :
    ∀ (n : Nat) (st : WsState) (s : uniqSubscriber),
      alookup p.Key st.subscribers = some s → s.listeners ≠ [] →
      (subscribeP1Iter p n st).2 = []
  | 0, _, _, _, _ => rfl
  | n + 1, st, s, hs, hne => by
    obtain ⟨hf, hl, _, _⟩ := subscribeP1_of_existing st p s hs hne
    have ih := subscribeP1Iter_of_existing p n (subscribeP1 st p false).state
      { s with listeners := s.listeners ++ [key [p.Key, toString (st.nextSubID + 1)]] }
      hl (by simp)
    simp [subscribeP1Iter, hf, ih]

theorem resubscribeAllP1_of_conn (st : WsState) (h : st.conn = true) :
    ∀ l : List (String × uniqSubscriber),
      resubscribeAllP1 st l
        = .ok (l.map (fun g =>
            { method := "subscribe", subscription := some g.2.subscriptionPayload }))
  | [] => rfl
  | (k, s) :: t => by
    have ih := resubscribeAllP1_of_conn st h t
    simp [resubscribeAllP1, sendSubscribeP1, h, ih]

theorem payloadKeys_of_groups :
    ∀ l : List (String × uniqSubscriber),
      (∀ kg ∈ l, (kg.2 : uniqSubscriber).subscriptionPayload.Key = kg.1) →
      (l.map (fun g =>
          ({ method := "subscribe", subscription := some g.2.subscriptionPayload } :
            wsCommand))).map wsCommand.payloadKey
        = l.map Prod.fst
  | [], _ => rfl
  | (k, s) :: t, h => by
    have ih := payloadKeys_of_groups t (fun kg hk => h kg (List.mem_cons_of_mem _ hk))
    have hh := h (k, s) (List.mem_cons_self _ _)
    simp only at hh
    simp [wsCommand.payloadKey, hh, ih]

/-! ### Concrete states used by counterexamples and witnesses -/

def goInit : WsGoState :=
  { subscriptions := [], parsedSubscriptions := [], subscriptionByID := [],
    parsedSubscriptionByID := [], nextSubID := 0, conn := true, doneClosed := false }

def goInitNoConn : WsGoState := { goInit with conn := false }

def tradesBTCSub : Subscription := { type := "trades", coin := "BTC", user := "", interval := "" }

def kBTC : subKey := { typ := "trades", coin := "BTC", user := "", interval := "" }

def p1Init : WsState :=
  { subscribers := [], nextSubID := 0, conn := true, doneClosed := false }

def c3State : WsGoState :=
  (SubscribeParsedGo (SubscribeGo goInit tradesBTCSub false).state tradesBTCSub false).state

def c2State : WsGoState :=
  { subscriptions := [(kBTC, [1])], parsedSubscriptions := [],
    subscriptionByID := [(1, (kBTC, tradesBTCSub))], parsedSubscriptionByID := [],
    nextSubID := 1, conn := true, doneClosed := false }

def ordersGroup : uniqSubscriber :=
  { id := keyOrderUpdates "u1",
    subscriptionPayload := .orderUpdates { type := "orderUpdates", user := "u1" },
    listeners := ["L1"] }

def tradesGroup : uniqSubscriber :=
  { id := keyTrades "BTC",
    subscriptionPayload := .trades { type := "trades", coin := "BTC" },
    listeners := ["L2"] }

def c5State : WsState :=
  { subscribers := [(ordersGroup.id, ordersGroup), (tradesGroup.id, tradesGroup)],
    nextSubID := 2, conn := true, doneClosed := false }

def tradeBTC : Trade :=
  { coin := "BTC", side := "B", px := "1", sz := "1", time := 0, hash := "h", tid := 0,
    users := [] }

/-! ### Claim C1 -/

/-- Claim C1, counterexample: on the subKey client of ws.go, `Subscribe`
sends an upstream subscribe frame on every successful call, not only on the
zero-to-one listener transition.  Attaching two listeners for the canonical
key of the trades/BTC subscription from the fresh connected client sends two
frames, and the second attach (the group already holds one listener) sends a
non-empty frame list, contradicting the claim. -/
theorem C1_subscribe_dedup_cex :
    (subscribeGoIter tradesBTCSub 2 goInit).2.length = 2 ∧
    (SubscribeGo (SubscribeGo goInit tradesBTCSub false).state tradesBTCSub false).frames
      ≠ [] := by
  decide

/-- Claim C1 (amended): in the string-keyed client, a subscribe call for a
key whose group already holds a listener sends no upstream frame, and
attaching N ≥ 1 listeners for the same payload from the fresh connected
client sends exactly one subscribe frame; the subKey client's `Subscribe`
instead sends one frame per successful attach, so N attaches send N
frames. -/
theorem C1_subscribe_dedup :
    (∀ (st : WsState) (p : subscriptable) (s : uniqSubscriber),
      alookup p.Key st.subscribers = some s → s.listeners ≠ [] →
      (subscribeP1 st p false).frames = []) ∧
    (∀ (n : Nat) (p : subscriptable), 1 ≤ n →
      (subscribeP1Iter p n p1Init).2
        = [{ method := "subscribe", subscription := some p }]) ∧
    (∀ (n : Nat) (st : WsGoState) (sub : Subscription), st.conn = true →
      (subscribeGoIter sub n st).2.length = n) := by
  refine ⟨?_, ?_, ?_⟩
  · intro st p s hs hne
    exact (subscribeP1_of_existing st p s hs hne).1
  · intro n p hn
    match n, hn with
    | n + 1, _ =>
      obtain ⟨hf, hl, _, _⟩ := subscribeP1_of_fresh p1Init p rfl rfl
      simp [subscribeP1Iter, hf, subscribeP1Iter_of_existing p n _ _ hl (by simp)]
  · intro n st sub h
    exact subscribeGoIter_of_conn sub n st h

/-- Claim C1, witness: three sequential attaches of the trades/BTC payload
on the fresh string-keyed client send exactly one subscribe frame. -/
theorem C1_subscribe_dedup_witness :
    1 ≤ 3 ∧
    (subscribeP1Iter (subscriptable.trades { type := "trades", coin := "BTC" }) 3 p1Init).2
      = [{ method := "subscribe",
           subscription := some (subscriptable.trades { type := "trades", coin := "BTC" }) }] :=
  ⟨by decide, C1_subscribe_dedup.2.1 3 _ (by decide)⟩

/-! ### Claim C2 -/

/-- Claim C2: detaching a registered listener that is the last of its group
sends exactly one upstream unsubscribe frame and removes the group from the
registry; detaching a non-last listener sends no frame.  Stated for both
registry branches of the subKey client's `Unsubscribe` and for the
string-keyed client's detach path (the handle's `Close` through the
`onUnsubscribe` hook of part_001), for a connected client whose registry
keys are free of duplicates. -/
theorem C2_unsubscribe_drain :
    (∀ (st : WsGoState) (id : Nat) (k : subKey) (sub : Subscription) (ls : List Nat),
      st.conn = true →
      (st.subscriptions.map Prod.fst).Nodup →
      alookup id st.subscriptionByID = some (k, sub) →
      alookup k st.subscriptions = some ls →
      id ∈ ls →
      (ls.filter (fun i => i ≠ id) = [] →
        (UnsubscribeGo st id).frames = [{ method := "unsubscribe", subscription := some sub }] ∧
        alookup k (UnsubscribeGo st id).state.subscriptions = none ∧
        (UnsubscribeGo st id).result = .ok ()) ∧
      (ls.filter (fun i => i ≠ id) ≠ [] → (UnsubscribeGo st id).frames = [])) ∧
    (∀ (st : WsGoState) (id : Nat) (k : subKey) (sub : Subscription) (ls : List Nat),
      st.conn = true →
      (st.parsedSubscriptions.map Prod.fst).Nodup →
      alookup id st.subscriptionByID = none →
      alookup id st.parsedSubscriptionByID = some (k, sub) →
      alookup k st.parsedSubscriptions = some ls →
      id ∈ ls →
      (ls.filter (fun i => i ≠ id) = [] →
        (UnsubscribeGo st id).frames = [{ method := "unsubscribe", subscription := some sub }] ∧
        alookup k (UnsubscribeGo st id).state.parsedSubscriptions = none ∧
        (UnsubscribeGo st id).result = .ok ()) ∧
      (ls.filter (fun i => i ≠ id) ≠ [] → (UnsubscribeGo st id).frames = [])) ∧
    (∀ (st : WsState) (pkey subID : String) (s : uniqSubscriber),
      st.conn = true →
      (st.subscribers.map Prod.fst).Nodup →
      alookup pkey st.subscribers = some s →
      subID ∈ s.listeners →
      (s.listeners.filter (fun l => l ≠ subID) = [] →
        (unsubscribeP1 st pkey subID).2
            = [{ method := "unsubscribe", subscription := some s.subscriptionPayload }] ∧
        alookup pkey (unsubscribeP1 st pkey subID).1.subscribers = none) ∧
      (s.listeners.filter (fun l => l ≠ subID) ≠ [] →
        (unsubscribeP1 st pkey subID).2 = [])) := by
  refine ⟨?_, ?_, ?_⟩
  · intro st id k sub ls hconn hnodup hbyid hsubs hmem
    have herase := alookup_aerase_of_nodup k _
      (keys_aset_nodup k ([] : List Nat) st.subscriptions hnodup)
    constructor
    · intro hlast
      simp only [UnsubscribeGo, hbyid, hsubs, Option.getD_some, hmem, if_true, ite_true]
      rw [hlast]
      simp [sendUnsubscribeGo, writeJSONGo, hconn, herase]
    · intro hrest
      simp only [UnsubscribeGo, hbyid, hsubs, Option.getD_some, hmem, if_true, ite_true]
      rw [if_neg hrest]
  · intro st id k sub ls hconn hnodup hnone hbyid hsubs hmem
    have herase := alookup_aerase_of_nodup k _
      (keys_aset_nodup k ([] : List Nat) st.parsedSubscriptions hnodup)
    constructor
    · intro hlast
      simp only [UnsubscribeGo, hnone, hbyid, hsubs, Option.getD_some, hmem, if_true, ite_true]
      rw [hlast]
      simp [sendUnsubscribeGo, writeJSONGo, hconn, herase]
    · intro hrest
      simp only [UnsubscribeGo, hnone, hbyid, hsubs, Option.getD_some, hmem, if_true, ite_true]
      rw [if_neg hrest]
  · intro st pkey subID s hconn hnodup hs hmem
    constructor
    · intro hlast
      simp only [unsubscribeP1, hs]
      rw [hlast]
      simp [sendUnsubscribeP1, hconn, alookup_aerase_of_nodup pkey st.subscribers hnodup]
    · intro hrest
      simp only [unsubscribeP1, hs]
      rw [if_neg hrest]

/-- Claim C2, witness: detaching the single listener of the trades/BTC group
sends exactly one unsubscribe frame and removes the group, on the subKey
client and on the string-keyed client. -/
theorem C2_unsubscribe_drain_witness :
    [1].filter (fun i => i ≠ 1) = [] ∧
    ((UnsubscribeGo c2State 1).frames
        = [{ method := "unsubscribe", subscription := some tradesBTCSub }] ∧
      alookup kBTC (UnsubscribeGo c2State 1).state.subscriptions = none ∧
      (UnsubscribeGo c2State 1).result = .ok ()) ∧
    ((unsubscribeP1 c5State tradesGroup.id "L2").2
        = [{ method := "unsubscribe", subscription := some tradesGroup.subscriptionPayload }] ∧
      alookup tradesGroup.id (unsubscribeP1 c5State tradesGroup.id "L2").1.subscribers
        = none) :=
  ⟨by decide,
    (C2_unsubscribe_drain.1 c2State 1 kBTC tradesBTCSub [1] (by decide) (by decide) (by decide)
      (by decide) (by decide)).1 (by decide),
    (C2_unsubscribe_drain.2.2 c5State tradesGroup.id "L2" tradesGroup (by decide) (by decide)
      (by decide) (by decide)).1 (by decide)⟩

/-! ### Claim C3 -/

/-- Claim C3, counterexample: a canonical key that has a live listener in
both the plain and the parsed registry receives two identical subscribe
frames from `resubscribeAll`, contradicting the one-frame-per-key claim.
The state is reached by one `Subscribe` and one `SubscribeParsed` for the
same subscription on the fresh connected client. -/
theorem C3_resubscribe_cex :
    resubscribeAllGo c3State
      = .ok [{ method := "subscribe", subscription := some tradesBTCSub },
             { method := "subscribe", subscription := some tradesBTCSub }] ∧
    c3State.subscriptions.map Prod.fst = [kBTC] ∧
    c3State.parsedSubscriptions.map Prod.fst = [kBTC] := by
  decide

/-- Claim C3 (amended): on the string-keyed client, `resubscribeAll` sends
exactly one subscribe frame per registered group, and since every group
carries the canonical key of its payload and each key is bound at most
once, the frames' canonical keys are exactly the registered (live) keys —
the claimed one-frame-per-live-key property holds there.  On the subKey
client, `resubscribeAll` iterates the plain and the parsed registry
separately: one frame per key with at least one live listener within each
registry, none for keys with zero live listeners, but a key with live
listeners in both registries gets exactly two identical frames (one per
registry), not one. -/
theorem C3_resubscribe_amended :
    (∀ st : WsGoState, st.conn = true →
      resubscribeAllGo st
        = .ok (liveFrames st.subscriptions ++ liveFrames st.parsedSubscriptions)) ∧
    (∀ (st : WsGoState) (k : subKey) (fs : List WsCommand), st.conn = true →
      (st.subscriptions.map Prod.fst).Nodup →
      (st.parsedSubscriptions.map Prod.fst).Nodup →
      resubscribeAllGo st = .ok fs →
      countCmd { method := "subscribe", subscription := some (subOfKey k) } fs
        = (if liveIn st.subscriptions k then 1 else 0)
          + (if liveIn st.parsedSubscriptions k then 1 else 0)) ∧
    (∀ st : WsState, st.conn = true →
      resubscribeAllP1 st st.subscribers
        = .ok (st.subscribers.map (fun g =>
            { method := "subscribe", subscription := some g.2.subscriptionPayload }))) ∧
    (∀ st : WsState,
      (∀ kg ∈ st.subscribers, (kg.2 : uniqSubscriber).subscriptionPayload.Key = kg.1) →
      (st.subscribers.map (fun g =>
          ({ method := "subscribe", subscription := some g.2.subscriptionPayload } :
            wsCommand))).map wsCommand.payloadKey
        = st.subscribers.map Prod.fst) := by
  refine ⟨fun st h => resubscribeAllGo_of_conn st h, ?_,
    fun st h => resubscribeAllP1_of_conn st h st.subscribers,
    fun st h => payloadKeys_of_groups st.subscribers h⟩
  intro st k fs hconn h1 h2 hfs
  rw [resubscribeAllGo_of_conn st hconn] at hfs
  have hfs2 := Except.ok.inj hfs
  rw [← hfs2, countCmd_append, countCmd_liveFrames k _ h1, countCmd_liveFrames k _ h2]

/-- Claim C3, witness: on the dual-registry state of the counterexample the
per-key frame count is 1 + 1, and on a two-group string-keyed state the
replay sends one frame per group whose keys are the registered keys. -/
theorem C3_resubscribe_amended_witness :
    c3State.conn = true ∧
    countCmd { method := "subscribe", subscription := some (subOfKey kBTC) }
        [{ method := "subscribe", subscription := some tradesBTCSub },
         { method := "subscribe", subscription := some tradesBTCSub }]
      = (if liveIn c3State.subscriptions kBTC then 1 else 0)
        + (if liveIn c3State.parsedSubscriptions kBTC then 1 else 0) ∧
    resubscribeAllP1 c5State c5State.subscribers
      = .ok (c5State.subscribers.map (fun g =>
          { method := "subscribe", subscription := some g.2.subscriptionPayload })) ∧
    (c5State.subscribers.map (fun g =>
        ({ method := "subscribe", subscription := some g.2.subscriptionPayload } :
          wsCommand))).map wsCommand.payloadKey
      = c5State.subscribers.map Prod.fst :=
  ⟨by decide,
    C3_resubscribe_amended.2.1 c3State kBTC _ (by decide) (by decide) (by decide) (by decide),
    C3_resubscribe_amended.2.2.1 c5State (by decide),
    C3_resubscribe_amended.2.2.2 c5State (by decide)⟩

/-! ### Claim C4 -/

/-- Claim C4 (code bug): `Close` of the subKey client executes
`close(w.done)` unconditionally, so the second sequential `Close` call
closes an already-closed channel and panics; the claim (and the spec's
idempotent-shutdown requirement, honoured by the string-keyed client's
`closeOnce`) says every call after the first is a no-op. -/
theorem C4_close_second_call_panics :
    CloseGo goInit = .ok { goInit with doneClosed := true } none ∧
    CloseGo { goInit with doneClosed := true } = .panicked := by
  decide

/-! ### Claim C5 -/

/-- Claim C5, counterexample: the client hands the user-specific dispatcher
the groups of the whole registry, and the dispatcher delivers to all of
them, so an order-updates message reaches listener L2 even though L2 is
attached only under the trades/BTC key of a different channel —
contradicting the delivered-to-no-other-channel half of the claim. -/
theorem C5_user_broadcast_cex :
    dispatchP1 c5State { Channel := ChannelOrderUpdates, Data := .orders [] }
      = .ok [("L1", .orders []), ("L2", .orders [])] ∧
    tradesGroup.id ≠ keyOrderUpdates "u1" ∧
    tradesGroup.listeners = ["L2"] := by
  decide

/-- Claim C5 (amended): for an inbound message on a user-scoped channel
(notification, orderUpdates) that decodes, the user-specific dispatcher
delivers the decoded payload to every listener of every subscriber group it
is handed — regardless of the user filter and regardless of the group's
channel — the registry hands it all groups, and every listener of every
group is in the delivery list. -/
theorem C5_user_broadcast_amended :
    (∀ (subs : List uniqSubscriber) (msg : wsMessage) (os : WsOrders),
      msg.Channel = ChannelOrderUpdates → msg.Data = .orders os →
      NewUserSpecificDispatcher ChannelOrderUpdates decodeOrders wsData.orders subs msg
        = .ok (subs.flatMap (fun s => s.dispatch (wsData.orders os)))) ∧
    (∀ (subs : List uniqSubscriber) (msg : wsMessage) (n : Notification),
      msg.Channel = ChannelNotification → msg.Data = .notification n →
      NewUserSpecificDispatcher ChannelNotification decodeNotification wsData.notification
          subs msg
        = .ok (subs.flatMap (fun s => s.dispatch (wsData.notification n)))) ∧
    (∀ (subs : List uniqSubscriber) (v : wsData) (s : uniqSubscriber) (l : String),
      s ∈ subs → l ∈ s.listeners →
      (l, v) ∈ subs.flatMap (fun s2 => s2.dispatch v)) := by
  refine ⟨?_, ?_, ?_⟩
  · intro subs msg os hch hdata
    rw [NewUserSpecificDispatcher, if_neg (by simp [hch]), hdata]
    simp only [decodeOrders]
    rw [foldl_append_eq_flatMap]
    simp
  · intro subs msg n hch hdata
    rw [NewUserSpecificDispatcher, if_neg (by simp [hch]), hdata]
    simp only [decodeNotification]
    rw [foldl_append_eq_flatMap]
    simp
  · intro subs v s l hs hl
    refine List.mem_flatMap.mpr ⟨s, hs, ?_⟩
    simp only [uniqSubscriber.dispatch, List.mem_map]
    exact ⟨l, hl, rfl⟩

/-- Claim C5, witness: the order-updates dispatcher on the two groups of the
counterexample state delivers to both groups' listeners. -/
theorem C5_user_broadcast_amended_witness :
    ({ Channel := ChannelOrderUpdates, Data := .orders [] } : wsMessage).Channel
        = ChannelOrderUpdates ∧
    NewUserSpecificDispatcher ChannelOrderUpdates decodeOrders wsData.orders
        [ordersGroup, tradesGroup] { Channel := ChannelOrderUpdates, Data := .orders [] }
      = .ok ([ordersGroup, tradesGroup].flatMap (fun s => s.dispatch (wsData.orders []))) :=
  ⟨rfl, C5_user_broadcast_amended.1 [ordersGroup, tradesGroup] _ [] rfl rfl⟩

/-! ### Claim C6 -/

/-- Claim C6: for a trades message whose payload decodes to a non-empty
trade array, the dispatcher computes the canonical key from the first
element's coin and delivers the payload exactly to the listeners of groups
whose key equals that computed key; a listener attached only under a
different key is never invoked. -/
theorem C6_trades_key_isolation :
    ∀ (subs : List uniqSubscriber) (msg : wsMessage) (ts : Trades),
      msg.Channel = ChannelTrades → msg.Data = .trades ts → ts ≠ [] →
      NewMsgDispatcher ChannelTrades decodeTrades Trades.Key wsData.trades subs msg
          = .ok ((subs.filter (fun s => decide (s.id = Trades.Key ts))).flatMap
              (fun s => s.dispatch (wsData.trades ts))) ∧
        (∀ (l : String) (v : wsData),
          (l, v) ∈ (subs.filter (fun s => decide (s.id = Trades.Key ts))).flatMap
              (fun s => s.dispatch (wsData.trades ts))
            ↔ v = wsData.trades ts ∧ ∃ s, s ∈ subs ∧ s.id = Trades.Key ts ∧ l ∈ s.listeners) ∧
        (∀ (t : Trade) (rest : List Trade), ts = t :: rest →
          Trades.Key ts = keyTrades t.coin) := by
  intro subs msg ts hch hdata hne
  refine ⟨?_, ?_, ?_⟩
  · rw [NewMsgDispatcher, if_neg (by simp [hch]), hdata]
    simp only [decodeTrades]
    rw [foldl_ite_append_eq_flatMap_filter]
    simp
  · intro l v
    simp only [List.mem_flatMap, List.mem_filter, uniqSubscriber.dispatch, List.mem_map,
      decide_eq_true_eq, Prod.mk.injEq]
    constructor
    · rintro ⟨s, ⟨hs, hid⟩, l2, hl2, hle, hve⟩
      exact ⟨hve.symm, s, hs, hid, hle ▸ hl2⟩
    · rintro ⟨hv, s, hs, hid, hl⟩
      exact ⟨s, ⟨hs, hid⟩, l, hl, rfl, hv.symm⟩
  · intro t rest hts
    rw [hts]
    rfl

/-- Claim C6, witness: a trades/BTC message on the two-group state is
delivered exactly to the trades/BTC group's listener L2. -/
theorem C6_trades_key_isolation_witness :
    ([tradeBTC] : Trades) ≠ [] ∧
    NewMsgDispatcher ChannelTrades decodeTrades Trades.Key wsData.trades
        [ordersGroup, tradesGroup] { Channel := ChannelTrades, Data := .trades [tradeBTC] }
      = .ok [("L2", wsData.trades [tradeBTC])] :=
  ⟨by decide,
    ((C6_trades_key_isolation [ordersGroup, tradesGroup]
        { Channel := ChannelTrades, Data := .trades [tradeBTC] } [tradeBTC] rfl rfl
        (by decide)).1).trans (by decide)⟩

/-! ### Claim C7 -/

/-- Claim C7: the canonical key derived from a subscription request is the
same for any application order of the field-setters `WithCoin`, `WithUser`,
`WithInterval`, equals the key of the record with those discriminating
fields, two requests with identical discriminating fields derive equal
keys, and key derivation is deterministic. -/
theorem C7_key_order_independence :
    (∀ (T : Type) (ps : ParsedSubscription T) (c u i : String),
      ((((ps.WithCoin c).WithUser u).WithInterval i).GetSubscription).key
          = ((((ps.WithCoin c).WithInterval i).WithUser u).GetSubscription).key ∧
      ((((ps.WithCoin c).WithUser u).WithInterval i).GetSubscription).key
          = ((((ps.WithUser u).WithCoin c).WithInterval i).GetSubscription).key ∧
      ((((ps.WithCoin c).WithUser u).WithInterval i).GetSubscription).key
          = ((((ps.WithUser u).WithInterval i).WithCoin c).GetSubscription).key ∧
      ((((ps.WithCoin c).WithUser u).WithInterval i).GetSubscription).key
          = ((((ps.WithInterval i).WithCoin c).WithUser u).GetSubscription).key ∧
      ((((ps.WithCoin c).WithUser u).WithInterval i).GetSubscription).key
          = ((((ps.WithInterval i).WithUser u).WithCoin c).GetSubscription).key ∧
      ((((ps.WithCoin c).WithUser u).WithInterval i).GetSubscription).key
          = { typ := ps.subscription.type, coin := c, user := u, interval := i }) ∧
    (∀ s1 s2 : Subscription, s1.type = s2.type → s1.coin = s2.coin → s1.user = s2.user →
      s1.interval = s2.interval → s1.key = s2.key) ∧
    (∀ s : Subscription, s.key = s.key) := by
  refine ⟨?_, ?_, fun _ => rfl⟩
  · intro T ps c u i
    exact ⟨rfl, rfl, rfl, rfl, rfl, rfl⟩
  · intro s1 s2 h1 h2 h3 h4
    cases s1
    cases s2
    simp only at h1 h2 h3 h4
    simp [Subscription.key, h1, h2, h3, h4]

/-- Claim C7, witness: two equal-field candle subscriptions derive the same
key. -/
theorem C7_key_order_independence_witness :
    ({ type := "candle", coin := "BTC", user := "", interval := "1m" } : Subscription).type
        = ({ type := "candle", coin := "BTC", user := "", interval := "1m" } :
            Subscription).type ∧
    ({ type := "candle", coin := "BTC", user := "", interval := "1m" } : Subscription).key
        = ({ type := "candle", coin := "BTC", user := "", interval := "1m" } :
            Subscription).key :=
  ⟨rfl, C7_key_order_independence.2.1 _ _ rfl rfl rfl rfl⟩

/-! ### Claim C8 -/

/-- Claim C8: the canonical key of a book-snapshot (l2Book) subscription
payload depends only on the coin; the presentation parameters `NSigFigs`
and `Mantissa` are excluded, so two payloads with the same coin and
different presentation parameters key to the same group. -/
theorem C8_l2book_presentation_excluded (p1 p2 : remoteL2BookSubscriptionPayload)
    (h : p1.coin = p2.coin) : p1.Key = p2.Key := by
  simp [remoteL2BookSubscriptionPayload.Key, keyL2Book, h]

/-- Claim C8, witness: same coin, different `nSigFigs`/`mantissa`, equal
keys. -/
theorem C8_l2book_presentation_excluded_witness :
    ({ type := "l2Book", coin := "BTC", nSigFigs := 5, mantissa := 2 } :
        remoteL2BookSubscriptionPayload).nSigFigs
      ≠ ({ type := "l2Book", coin := "BTC", nSigFigs := 0, mantissa := 0 } :
        remoteL2BookSubscriptionPayload).nSigFigs ∧
    ({ type := "l2Book", coin := "BTC", nSigFigs := 5, mantissa := 2 } :
        remoteL2BookSubscriptionPayload).Key
      = ({ type := "l2Book", coin := "BTC", nSigFigs := 0, mantissa := 0 } :
        remoteL2BookSubscriptionPayload).Key :=
  ⟨by decide, C8_l2book_presentation_excluded _ _ rfl⟩

/-! ### Claim C9 -/

/-- Claim C9, counterexample: when the upstream subscribe send fails on the
subKey client for a key with no existing group, `Subscribe` returns the
error and removes the listener, but the empty group container created for
the key stays in the registry, so the registry is not as if the attach had
never happened. -/
theorem C9_failed_attach_cex :
    (SubscribeGo goInitNoConn tradesBTCSub false).result
        = .error "subscribe: connection closed" ∧
    (SubscribeGo goInitNoConn tradesBTCSub false).state.subscriptions = [(kBTC, [])] ∧
    goInitNoConn.subscriptions = [] := by
  decide

/-- Claim C9 (amended): on the subKey client a failed upstream send makes the
attach fail with the error, sends no frame, removes the listener and leaves
the reverse-lookup table unchanged, but an empty group entry for the key
remains in the registry; on the string-keyed client the send failure is only
logged — the attach sends no frame yet still succeeds. -/
theorem C9_failed_attach_amended :
    (∀ (st : WsGoState) (sub : Subscription),
      st.conn = false →
      alookup sub.key st.subscriptions = none →
      alookup (st.nextSubID + 1) st.subscriptionByID = none →
      (SubscribeGo st sub false).result = .error "subscribe: connection closed" ∧
      (SubscribeGo st sub false).frames = [] ∧
      alookup sub.key (SubscribeGo st sub false).state.subscriptions = some [] ∧
      (SubscribeGo st sub false).state.subscriptionByID = st.subscriptionByID) ∧
    (∀ (st : WsState) (p : subscriptable),
      st.conn = false →
      (subscribeP1 st p false).frames = [] ∧
      (subscribeP1 st p false).result = .ok (key [p.Key, toString (st.nextSubID + 1)])) := by
  constructor
  · intro st sub hconn habs hid
    simp only [SubscribeGo, Bool.false_eq_true, if_false, habs, sendSubscribeGo, writeJSONGo,
      hconn, alookup_aset_self, Option.getD_some, List.nil_append, aset_aset_self]
    exact ⟨rfl, trivial, by simp, aerase_aset_of_absent _ _ _ hid⟩
  · intro st p hconn
    simp only [subscribeP1, Bool.false_eq_true, if_false, sendSubscribeP1, hconn]
    exact ⟨by simp, trivial⟩

/-- Claim C9, witness: the amended statement at the fresh disconnected
client and the trades/BTC subscription. -/
theorem C9_failed_attach_amended_witness :
    goInitNoConn.conn = false ∧
    ((SubscribeGo goInitNoConn tradesBTCSub false).result
        = .error "subscribe: connection closed" ∧
      (SubscribeGo goInitNoConn tradesBTCSub false).frames = [] ∧
      alookup tradesBTCSub.key
          (SubscribeGo goInitNoConn tradesBTCSub false).state.subscriptions = some [] ∧
      (SubscribeGo goInitNoConn tradesBTCSub false).state.subscriptionByID
        = goInitNoConn.subscriptionByID) :=
  ⟨rfl, C9_failed_attach_amended.1 goInitNoConn tradesBTCSub rfl rfl rfl⟩

/-! ### Claim C10 -/

/-- Claim C10: the canonical key derivation joins the discriminating fields
with the separator `":"` and is not injective: the candle key for (symbol
`A:B`, interval `C`) equals the candle key for (symbol `A`, interval
`B:C`), both as the raw key function and as the content-derived `Key` of
two different candle batches, so two logically different subscriptions
collapse onto one subscriber group. -/
theorem C10_key_not_injective :
    keyCandles "A:B" "C" = keyCandles "A" "B:C" ∧
    ("A:B", "C") ≠ (("A", "B:C") : String × String) ∧
    Candles.Key [{ timestamp := 0, close := "", high := "", interval := "C", low := "",
                   number := 0, openPx := "", symbol := "A:B", time := 0, volume := "" }]
      = Candles.Key [{ timestamp := 0, close := "", high := "", interval := "B:C", low := "",
                       number := 0, openPx := "", symbol := "A", time := 0, volume := "" }] ∧
    ({ timestamp := 0, close := "", high := "", interval := "C", low := "", number := 0,
       openPx := "", symbol := "A:B", time := 0, volume := "" } : Candle)
      ≠ { timestamp := 0, close := "", high := "", interval := "B:C", low := "", number := 0,
          openPx := "", symbol := "A", time := 0, volume := "" } := by
  decide

end GoHyperliquid
